import Mathlib

/-!
Shallow embedding of the agno session-storage engine:
- the session data model (libs/agno/agno/storage/session/base.py and
  libs/agno/agno/storage/session/workflow.py; the agent specialization
  libs/agno/agno/storage/session/agent.py is not part of the sources and is
  modelled from the spec, mirroring the workflow specialization),
- the document backend (libs/agno/agno/storage/yaml.py),
- the transactional backends (libs/agno/agno/storage/postgres.py and
  libs/agno/agno/storage/sqlite.py), whose runtime operations coincide
  field-for-field in this embedding and are therefore given once.

Machine integers (unix timestamps) are modelled as Int; Python None as
Option.none; opaque structured blobs (memory, session_data, extra_data,
agent_data, workflow_data) as uninterpreted optional strings that the engine
passes through unmodified, exactly as the source does.
-/

/-- Construction-time mode of a storage instance (agent or workflow). -/
inductive Mode where
  | agent
  | workflow
deriving DecidableEq

/-- Opaque structured blob: the engine never inspects its contents. -/
abbrev Blob := String

/-- WorkflowSession dataclass (storage/session/workflow.py): the base Session
fields of storage/session/base.py plus workflow_id and workflow_data. -/
structure WorkflowSession where
  session_id : String
  user_id : Option String := Option.none
  memory : Option Blob := Option.none
  session_data : Option Blob := Option.none
  extra_data : Option Blob := Option.none
  created_at : Option Int := Option.none
  updated_at : Option Int := Option.none
  workflow_id : Option String := Option.none
  workflow_data : Option Blob := Option.none
deriving DecidableEq

/-- Modelled from the spec: libs/agno/agno/storage/session/agent.py is not in
the sources. Per the data model of the spec, AgentSession = Session + agent_id
(indexed) + agent_data (opaque blob), the exact mirror of WorkflowSession with
workflow fields renamed to agent fields. -/
structure AgentSession where
  session_id : String
  user_id : Option String := Option.none
  memory : Option Blob := Option.none
  session_data : Option Blob := Option.none
  extra_data : Option Blob := Option.none
  created_at : Option Int := Option.none
  updated_at : Option Int := Option.none
  agent_id : Option String := Option.none
  agent_data : Option Blob := Option.none
deriving DecidableEq

/-- The Python value Union[AgentSession, WorkflowSession] passed to and
returned by every backend operation. -/
inductive SessionUnion where
  | agent (s : AgentSession)
  | workflow (s : WorkflowSession)
deriving DecidableEq

def SessionUnion.session_id : SessionUnion → String
  | .agent s => s.session_id
  | .workflow s => s.session_id

def SessionUnion.user_id : SessionUnion → Option String
  | .agent s => s.user_id
  | .workflow s => s.user_id

def SessionUnion.memory : SessionUnion → Option Blob
  | .agent s => s.memory
  | .workflow s => s.memory

def SessionUnion.session_data : SessionUnion → Option Blob
  | .agent s => s.session_data
  | .workflow s => s.session_data

def SessionUnion.extra_data : SessionUnion → Option Blob
  | .agent s => s.extra_data
  | .workflow s => s.extra_data

def SessionUnion.created_at : SessionUnion → Option Int
  | .agent s => s.created_at
  | .workflow s => s.created_at

def SessionUnion.updated_at : SessionUnion → Option Int
  | .agent s => s.updated_at
  | .workflow s => s.updated_at

/-- The mode-specific id of the session: session.agent_id when the session is
an AgentSession, session.workflow_id when it is a WorkflowSession. The source
reads the one matching the configured mode of the store. -/
def SessionUnion.entity_id : SessionUnion → Option String
  | .agent s => s.agent_id
  | .workflow s => s.workflow_id

/-- The mode-specific data blob (agent_data / workflow_data). -/
def SessionUnion.entity_data : SessionUnion → Option Blob
  | .agent s => s.agent_data
  | .workflow s => s.workflow_data

/-- The mode the session record belongs to. -/
def SessionUnion.mode : SessionUnion → Mode
  | .agent _ => Mode.agent
  | .workflow _ => Mode.workflow

/-- Python runtime values appearing as fields of a serialized session dict:
None, a string (ids and opaque blobs), or an integer (timestamps). -/
inductive Val where
  | null
  | str (s : String)
  | int (n : Int)
deriving DecidableEq

def optStrVal : Option String → Val
  | Option.none => Val.null
  | Option.some s => Val.str s

def optIntVal : Option Int → Val
  | Option.none => Val.null
  | Option.some n => Val.int n

def valToOptStr : Val → Option String
  | Val.str s => Option.some s
  | _ => Option.none

def valToOptInt : Val → Option Int
  | Val.int n => Option.some n
  | _ => Option.none

/-- A Python dict with string keys, as an association list in insertion
order (first binding of a key is the authoritative one). -/
abbrev Dict := List (String × Val)

/-- Python membership test: key in data. -/
def dictHasKey (d : Dict) (k : String) : Bool :=
  d.any (fun p => p.1 == k)

/-- Python data.get(key): the bound value, or None when the key is absent. -/
def dictGetD (d : Dict) (k : String) : Val :=
  match d.find? (fun p => p.1 == k) with
  | Option.some p => p.2
  | Option.none => Val.null

/-- Python data[key] = v: replaces the value in place when the key exists,
otherwise appends a new binding. -/
def dictSet (d : Dict) (k : String) (v : Val) : Dict :=
  if dictHasKey d k then
    d.map (fun p => if p.1 == k then (k, v) else p)
  else
    d ++ [(k, v)]

/-- Exceptions a storage operation can raise in this model. -/
inductive PyErr where
  | fileNotFound
  | yamlError
  | keyError
  | noSuchTable
  | transient
deriving DecidableEq

/-- Python data[key]: raises KeyError when the key is absent. -/
def dictIndex (d : Dict) (k : String) : Except PyErr Val :=
  match d.find? (fun p => p.1 == k) with
  | Option.some p => Except.ok p.2
  | Option.none => Except.error PyErr.keyError

/-- dataclasses.asdict of a WorkflowSession: every field of the dataclass is
present as a key, base-class fields first, in declaration order. -/
def WorkflowSession.asdict (s : WorkflowSession) : Dict :=
  [("session_id", Val.str s.session_id),
   ("user_id", optStrVal s.user_id),
   ("memory", optStrVal s.memory),
   ("session_data", optStrVal s.session_data),
   ("extra_data", optStrVal s.extra_data),
   ("created_at", optIntVal s.created_at),
   ("updated_at", optIntVal s.updated_at),
   ("workflow_id", optStrVal s.workflow_id),
   ("workflow_data", optStrVal s.workflow_data)]

/-- Modelled from the spec: dataclasses.asdict of the spec-modelled
AgentSession, mirroring WorkflowSession.asdict with agent field names. -/
def AgentSession.asdict (s : AgentSession) : Dict :=
  [("session_id", Val.str s.session_id),
   ("user_id", optStrVal s.user_id),
   ("memory", optStrVal s.memory),
   ("session_data", optStrVal s.session_data),
   ("extra_data", optStrVal s.extra_data),
   ("created_at", optIntVal s.created_at),
   ("updated_at", optIntVal s.updated_at),
   ("agent_id", optStrVal s.agent_id),
   ("agent_data", optStrVal s.agent_data)]

def SessionUnion.asdict : SessionUnion → Dict
  | .agent s => s.asdict
  | .workflow s => s.asdict

/-- WorkflowSession.from_dict (storage/session/workflow.py): returns None when
session_id is absent or None, otherwise rebuilds the record with data.get on
every field. -/
def WorkflowSession.fromDict (data : Dict) : Option WorkflowSession :=
  match dictGetD data "session_id" with
  | Val.str sid =>
      Option.some
        { session_id := sid
          workflow_id := valToOptStr (dictGetD data "workflow_id")
          user_id := valToOptStr (dictGetD data "user_id")
          memory := valToOptStr (dictGetD data "memory")
          workflow_data := valToOptStr (dictGetD data "workflow_data")
          session_data := valToOptStr (dictGetD data "session_data")
          extra_data := valToOptStr (dictGetD data "extra_data")
          created_at := valToOptInt (dictGetD data "created_at")
          updated_at := valToOptInt (dictGetD data "updated_at") }
  | _ => Option.none

/-- Modelled from the spec: AgentSession.from_dict, mirroring
WorkflowSession.from_dict with agent field names. -/
def AgentSession.fromDict (data : Dict) : Option AgentSession :=
  match dictGetD data "session_id" with
  | Val.str sid =>
      Option.some
        { session_id := sid
          agent_id := valToOptStr (dictGetD data "agent_id")
          user_id := valToOptStr (dictGetD data "user_id")
          memory := valToOptStr (dictGetD data "memory")
          agent_data := valToOptStr (dictGetD data "agent_data")
          session_data := valToOptStr (dictGetD data "session_data")
          extra_data := valToOptStr (dictGetD data "extra_data")
          created_at := valToOptInt (dictGetD data "created_at")
          updated_at := valToOptInt (dictGetD data "updated_at") }
  | _ => Option.none

/-- Python truthiness of an Optional[str]: None and the empty string are
falsy, every other string is truthy. -/
def optTruthy : Option String → Bool
  | Option.none => false
  | Option.some s => !(s == "")

/-- Content of one stored document: a well-formed serialized dict, or a
malformed document on which deserialization raises. -/
inductive FileContent where
  | doc (d : Dict)
  | malformed
deriving DecidableEq

/-- The document backend directory: files in scan order, keyed by the
session_id the file is named after. -/
abbrev FileStore := List (String × FileContent)

def lookupFile (st : FileStore) (sid : String) : Option FileContent :=
  match st.find? (fun p => p.1 == sid) with
  | Option.some p => Option.some p.2
  | Option.none => Option.none

/-- Overwriting an existing file keeps its scan position; a new file is
appended to the directory. -/
def writeFile (st : FileStore) (sid : String) (c : FileContent) : FileStore :=
  if st.any (fun p => p.1 == sid) then
    st.map (fun p => if p.1 == sid then (sid, c) else p)
  else
    st ++ [(sid, c)]

/-- Path.unlink with missing_ok: removes the file when present. -/
def removeFile (st : FileStore) (sid : String) : FileStore :=
  st.filter (fun p => !(p.1 == sid))

/-- yaml.safe_load: yields the dict for a well-formed document, raises for a
malformed one. -/
def deserialize : FileContent → Except PyErr Dict
  | FileContent.doc d => Except.ok d
  | FileContent.malformed => Except.error PyErr.yamlError

namespace YamlStorage

/-- YamlStorage.read (yaml.py lines 31-43): opens the file named by the
session_id (FileNotFoundError is the only caught exception, converted to
None), deserializes it, applies the truthy user_id filter via data["user_id"],
and rebuilds the record with the from_dict of the configured mode. -/
def read (mode : Mode) (st : FileStore) (session_id : String)
    (user_id : Option String) : Except PyErr (Option SessionUnion) :=
  let body : Except PyErr (Option SessionUnion) :=
    match lookupFile st session_id with
    | Option.none => Except.error PyErr.fileNotFound
    | Option.some content => do
        let data ← deserialize content
        if optTruthy user_id then
          let v ← dictIndex data "user_id"
          if !(v == optStrVal user_id) then
            pure Option.none
          else
            match mode with
            | Mode.agent => pure ((AgentSession.fromDict data).map SessionUnion.agent)
            | Mode.workflow => pure ((WorkflowSession.fromDict data).map SessionUnion.workflow)
        else
          match mode with
          | Mode.agent => pure ((AgentSession.fromDict data).map SessionUnion.agent)
          | Mode.workflow => pure ((WorkflowSession.fromDict data).map SessionUnion.workflow)
  match body with
  | Except.error PyErr.fileNotFound => Except.ok Option.none
  | r => r

/-- One iteration of the YamlStorage.get_all_session_ids loop (yaml.py lines
48-66) on a deserialized dict: the value appended to the result list, if any,
following the exact nesting and short-circuit order of the source. -/
def listIdStep (mode : Mode) (user_id entity_id : Option String) (data : Dict) :
    Except PyErr (Option Val) :=
  if optTruthy user_id || optTruthy entity_id then
    if optTruthy user_id && optTruthy entity_id then
      match mode with
      | Mode.agent => do
          let a ← dictIndex data "agent_id"
          if a == optStrVal entity_id then do
            let u ← dictIndex data "user_id"
            if u == optStrVal user_id then do
              let s ← dictIndex data "session_id"
              pure (Option.some s)
            else pure Option.none
          else pure Option.none
      | Mode.workflow => do
          let w ← dictIndex data "workflow_id"
          if w == optStrVal entity_id then do
            let u ← dictIndex data "user_id"
            if u == optStrVal user_id then do
              let s ← dictIndex data "session_id"
              pure (Option.some s)
            else pure Option.none
          else pure Option.none
    else if optTruthy user_id then do
      let u ← dictIndex data "user_id"
      if u == optStrVal user_id then do
        let s ← dictIndex data "session_id"
        pure (Option.some s)
      else pure Option.none
    else
      match mode with
      | Mode.agent => do
          let a ← dictIndex data "agent_id"
          if a == optStrVal entity_id then do
            let s ← dictIndex data "session_id"
            pure (Option.some s)
          else pure Option.none
      | Mode.workflow => do
          let w ← dictIndex data "workflow_id"
          if w == optStrVal entity_id then do
            let s ← dictIndex data "session_id"
            pure (Option.some s)
          else pure Option.none
  else do
    let s ← dictIndex data "session_id"
    pure (Option.some s)

/-- YamlStorage.get_all_session_ids (yaml.py lines 45-67): scans every file in
directory order with no exception handler, so a deserialization failure or a
missing key propagates to the caller. -/
def getAllSessionIds (mode : Mode) (st : FileStore)
    (user_id entity_id : Option String) : Except PyErr (List Val) :=
  st.foldlM
    (fun acc p => do
      let data ← deserialize p.2
      let r ← listIdStep mode user_id entity_id data
      match r with
      | Option.some v => pure (acc ++ [v])
      | Option.none => pure acc)
    []

/-- The record appended by one iteration of the YamlStorage.get_all_sessions
loop (yaml.py lines 74-98) on a deserialized dict, if any. Python appends the
raw result of from_dict, which may be None, so the element type is optional. -/
def listSessionStep (mode : Mode) (user_id entity_id : Option String)
    (data : Dict) : Except PyErr (Option (Option SessionUnion)) :=
  let build : Option SessionUnion :=
    match mode with
    | Mode.agent => (AgentSession.fromDict data).map SessionUnion.agent
    | Mode.workflow => (WorkflowSession.fromDict data).map SessionUnion.workflow
  if optTruthy user_id || optTruthy entity_id then
    if optTruthy user_id && optTruthy entity_id then
      match mode with
      | Mode.agent => do
          let a ← dictIndex data "agent_id"
          if a == optStrVal entity_id then do
            let u ← dictIndex data "user_id"
            if u == optStrVal user_id then
              pure (Option.some build)
            else pure Option.none
          else pure Option.none
      | Mode.workflow => do
          let w ← dictIndex data "workflow_id"
          if w == optStrVal entity_id then do
            let u ← dictIndex data "user_id"
            if u == optStrVal user_id then
              pure (Option.some build)
            else pure Option.none
          else pure Option.none
    else if optTruthy user_id then do
      let u ← dictIndex data "user_id"
      if u == optStrVal user_id then
        pure (Option.some build)
      else pure Option.none
    else
      match mode with
      | Mode.agent => do
          let a ← dictIndex data "agent_id"
          if a == optStrVal entity_id then
            pure (Option.some build)
          else pure Option.none
      | Mode.workflow => do
          let w ← dictIndex data "workflow_id"
          if w == optStrVal entity_id then
            pure (Option.some build)
          else pure Option.none
  else
    pure (Option.some build)

/-- YamlStorage.get_all_sessions (yaml.py lines 69-99): directory scan in
file order, no sorting, no exception handler. -/
def getAllSessions (mode : Mode) (st : FileStore)
    (user_id entity_id : Option String) : Except PyErr (List (Option SessionUnion)) :=
  st.foldlM
    (fun acc p => do
      let data ← deserialize p.2
      let r ← listSessionStep mode user_id entity_id data
      match r with
      | Option.some v => pure (acc ++ [v])
      | Option.none => pure acc)
    []

/-- The dict persisted by YamlStorage.upsert (yaml.py lines 104-107):
asdict(session), then updated_at stamped with the current time, then
created_at set to updated_at only when the created_at key is absent from the
dict (asdict always includes the key, so this guard never fires). -/
def upsertData (now : Int) (session : SessionUnion) : Dict :=
  let data := session.asdict
  let data := dictSet data "updated_at" (Val.int now)
  if !(dictHasKey data "created_at") then
    dictSet data "created_at" (dictGetD data "updated_at")
  else data

/-- YamlStorage.upsert (yaml.py lines 101-114): overwrites the file named by
the session_id with the serialized upsertData dict and returns the caller's
session object. The catch-all handler cannot fire in this model, as no
statement of the body raises. -/
def upsert (now : Int) (st : FileStore) (session : SessionUnion) :
    FileStore × Option SessionUnion :=
  (writeFile st session.session_id (FileContent.doc (upsertData now session)),
   Option.some session)

/-- The value stored under key k of the document persisted for sid, when that
document is well-formed. -/
def storedVal (st : FileStore) (sid k : String) : Option Val :=
  match lookupFile st sid with
  | Option.some (FileContent.doc d) => Option.some (dictGetD d k)
  | _ => Option.none

/-- YamlStorage.delete_session (yaml.py lines 116-123): returns at once when
session_id is None, otherwise unlinks the file, ignoring absence. -/
def deleteSession (st : FileStore) (session_id : Option String) : FileStore :=
  match session_id with
  | Option.none => st
  | Option.some sid => removeFile st sid

/-- YamlStorage.drop (yaml.py lines 125-128): unlinks every file. -/
def drop (_st : FileStore) : FileStore := []

end YamlStorage

/-- One row of the sessions table. The two transactional backends generate the
same common columns; the mode-specific pair is agent_id/agent_data in agent
mode and workflow_id/workflow_data in workflow mode (postgres.py get_table_v1,
sqlite.py get_table_v1), held here as eid/edata. On insert, created_at is
filled by the column default (the current time: a server default in postgres,
a python-side default in sqlite) and updated_at is left NULL, as neither
backend supplies it in the insert values and its onupdate hook does not fire
for an insert statement. -/
structure SqlRow where
  session_id : String
  eid : Option String
  user_id : Option String
  memory : Option Blob
  edata : Option Blob
  session_data : Option Blob
  extra_data : Option Blob
  created_at : Option Int
  updated_at : Option Int
deriving DecidableEq

/-- State of a transactional backing store: whether the table exists, and its
rows in insertion order. -/
structure SqlStore where
  tableExists : Bool
  rows : List SqlRow
deriving DecidableEq

namespace SqlStorage

/-- create (postgres.py lines 175-191, sqlite.py lines 186-200): creates the
table when absent (idempotent: no-op when present). A freshly created table is
empty. -/
def create (st : SqlStore) : SqlStore :=
  if st.tableExists then st else { tableExists := true, rows := [] }

/-- drop (postgres.py lines 402-408, sqlite.py lines 415-421): drops the table
when it exists. -/
def drop (st : SqlStore) : SqlStore :=
  if st.tableExists then { tableExists := false, rows := [] } else st

/-- The INSERT ... ON CONFLICT (session_id) DO UPDATE statement built by
upsert (postgres.py lines 316-365, sqlite.py lines 324-377). Both mode
branches write the same columns, with the mode-specific pair taken from the
session record. On conflict, every non-key column except created_at is
overwritten and updated_at is set to the current time; on a plain insert the
created_at column default fires and updated_at is not supplied. -/
def upsertStmt (now : Int) (st : SqlStore) (session : SessionUnion) : SqlStore :=
  if st.rows.any (fun r => r.session_id == session.session_id) then
    { st with
      rows := st.rows.map (fun r =>
        if r.session_id == session.session_id then
          { r with
            eid := session.entity_id
            user_id := session.user_id
            memory := session.memory
            edata := session.entity_data
            session_data := session.session_data
            extra_data := session.extra_data
            updated_at := Option.some now }
        else r) }
  else
    { st with
      rows := st.rows ++
        [{ session_id := session.session_id
           eid := session.entity_id
           user_id := session.user_id
           memory := session.memory
           edata := session.entity_data
           session_data := session.session_data
           extra_data := session.extra_data
           created_at := Option.some now
           updated_at := Option.none }] }

/-- Execution of the upsert statement inside the try block: raises the
missing-table error when the table does not exist, raises a transient error
when one is injected (modelling any other runtime failure the catch-all
handler of the source deals with), and otherwise applies the statement. -/
def upsertAttempt (now : Int) (fault : Bool) (st : SqlStore)
    (session : SessionUnion) : Except PyErr SqlStore :=
  if !st.tableExists then Except.error PyErr.noSuchTable
  else if fault then Except.error PyErr.transient
  else Except.ok (upsertStmt now st session)

/-- Rebuilding the session record of the configured mode from a fetched row
mapping via from_dict (postgres.py lines 210-213, sqlite.py lines 219-222).
The session_id column of a row is never NULL, so from_dict never returns
None here; the optional result mirrors its Python type. -/
def rowToRec (mode : Mode) (r : SqlRow) : Option SessionUnion :=
  match mode with
  | Mode.agent =>
      Option.some (SessionUnion.agent
        { session_id := r.session_id
          agent_id := r.eid
          user_id := r.user_id
          memory := r.memory
          agent_data := r.edata
          session_data := r.session_data
          extra_data := r.extra_data
          created_at := r.created_at
          updated_at := r.updated_at })
  | Mode.workflow =>
      Option.some (SessionUnion.workflow
        { session_id := r.session_id
          workflow_id := r.eid
          user_id := r.user_id
          memory := r.memory
          workflow_data := r.edata
          session_data := r.session_data
          extra_data := r.extra_data
          created_at := r.created_at
          updated_at := r.updated_at })

/-- read (postgres.py lines 193-221, sqlite.py lines 202-229): selects the row
with the given session_id, narrowing by user_id only when it is truthy; on the
missing-table exception it creates the table for future transactions and
returns None; any other exception is logged and None returned. The returned
pair is (store after the call, result). -/
def read (mode : Mode) (fault : Bool) (st : SqlStore) (session_id : String)
    (user_id : Option String) : SqlStore × Option SessionUnion :=
  if !st.tableExists then
    (create st, Option.none)
  else if fault then
    (st, Option.none)
  else
    let row :=
      if optTruthy user_id then
        st.rows.find? (fun r =>
          r.session_id == session_id && r.user_id == user_id)
      else
        st.rows.find? (fun r => r.session_id == session_id)
    (st, row.bind (rowToRec mode))

/-- Descending created_at order used by ORDER BY created_at DESC: row a
precedes row b when the created_at of b is at most that of a. Every row of a
reachable store carries a created_at value (the insert default always fires),
so the default value taken for NULL is immaterial. -/
def rowGE (a b : SqlRow) : Prop :=
  b.created_at.getD 0 ≤ a.created_at.getD 0

instance : DecidableRel rowGE := fun a b =>
  Int.decLe (b.created_at.getD 0) (a.created_at.getD 0)

instance : IsTotal SqlRow rowGE :=
  ⟨fun a b => (le_total (b.created_at.getD 0) (a.created_at.getD 0)).imp id id⟩

instance : IsTrans SqlRow rowGE :=
  ⟨fun _ _ _ hab hbc => le_trans hbc hab⟩

/-- SELECT ... WHERE filters ORDER BY created_at DESC shared by the two
listing operations (postgres.py lines 237-249, sqlite.py lines 245-256): the
filters use an is-not-None test (unlike read), the agent_id or workflow_id
column being the eid column of the configured mode. -/
def listRows (st : SqlStore) (user_id entity_id : Option String) : List SqlRow :=
  (st.rows.filter (fun r =>
        (user_id.isNone || (r.user_id == user_id)) &&
        (entity_id.isNone || (r.eid == entity_id)))).insertionSort rowGE

/-- get_all_session_ids (postgres.py lines 223-256, sqlite.py lines 231-264):
on success the session_id of every filtered row in descending created_at
order; on failure an empty list, creating the table when it was missing. -/
def getAllSessionIds (fault : Bool) (st : SqlStore)
    (user_id entity_id : Option String) : SqlStore × List String :=
  if !st.tableExists then
    (create st, [])
  else if fault then
    (st, [])
  else
    (st, (listRows st user_id entity_id).map (fun r => r.session_id))

/-- get_all_sessions (postgres.py lines 258-298, sqlite.py lines 266-307):
same filters and order, full records rebuilt by the from_dict of the mode
(Python appends the raw optional result of from_dict). -/
def getAllSessions (mode : Mode) (fault : Bool) (st : SqlStore)
    (user_id entity_id : Option String) : SqlStore × List (Option SessionUnion) :=
  if !st.tableExists then
    (create st, [])
  else if fault then
    (st, [])
  else
    (st, (listRows st user_id entity_id).map (rowToRec mode))

/-- The body of upsert (postgres.py lines 300-374, sqlite.py lines 309-387)
when create_and_retry is false: executes the atomic insert-or-update; on
success returns self.read of the fresh state; on an exception the guard
create_and_retry and not table_exists() is false, so None is returned. -/
def upsertOnce (mode : Mode) (now : Int) (fault : Bool) (st : SqlStore)
    (session : SessionUnion) : SqlStore × Option SessionUnion :=
  match upsertAttempt now fault st session with
  | Except.ok st2 => read mode fault st2 session.session_id Option.none
  | Except.error _ => (st, Option.none)

/-- upsert (postgres.py lines 300-374, sqlite.py lines 309-387): executes the
atomic insert-or-update; on success returns self.read of the fresh state; on
an exception, when create_and_retry holds and the table is missing, creates
the table and re-enters itself once with create_and_retry set to false (the
recursive call, with the guard false, is exactly upsertOnce, as the lemma
sql_upsert_false_eq_upsertOnce below records), otherwise returns None. -/
def upsert (mode : Mode) (now : Int) (fault : Bool) (st : SqlStore)
    (session : SessionUnion) (create_and_retry : Bool) :
    SqlStore × Option SessionUnion :=
  match upsertAttempt now fault st session with
  | Except.ok st2 => read mode fault st2 session.session_id Option.none
  | Except.error _ =>
      if create_and_retry && !st.tableExists then
        upsertOnce mode now fault (create st) session
      else
        (st, Option.none)

/-- delete_session (postgres.py lines 376-400, sqlite.py lines 389-413):
returns at once when session_id is None; otherwise deletes the matching row,
logging (not raising) when nothing matched or when the statement failed. -/
def deleteSession (fault : Bool) (st : SqlStore) (session_id : Option String) :
    SqlStore :=
  match session_id with
  | Option.none => st
  | Option.some sid =>
      if !st.tableExists then st
      else if fault then st
      else { st with rows := st.rows.filter (fun r => !(r.session_id == sid)) }

end SqlStorage

/-- The session with its updated_at field replaced, every other field kept:
the shape in which a round-tripped record differs from its input. -/
def SessionUnion.withUpdatedAt : SessionUnion → Option Int → SessionUnion
  | .agent s, t => .agent { s with updated_at := t }
  | .workflow s, t => .workflow { s with updated_at := t }

/-- The session with its created_at field replaced, every other field kept. -/
def SessionUnion.withCreatedAt : SessionUnion → Option Int → SessionUnion
  | .agent s, t => .agent { s with created_at := t }
  | .workflow s, t => .workflow { s with created_at := t }

/-- Sort key of a listed record: its created_at value (a listed record is
never None for well-formed stores; None gets the irrelevant default). -/
def sessKey : Option SessionUnion → Int
  | Option.some r => r.created_at.getD 0
  | Option.none => 0

/-- The row written by the insert branch of the transactional upsert: the
session fields, created_at filled by the column default with the write time,
updated_at left NULL. -/
def SqlStorage.insertedRow (now : Int) (s : SessionUnion) : SqlRow :=
  { session_id := s.session_id
    eid := s.entity_id
    user_id := s.user_id
    memory := s.memory
    edata := s.entity_data
    session_data := s.session_data
    extra_data := s.extra_data
    created_at := Option.some now
    updated_at := Option.none }

/-- The on-conflict update branch of the transactional upsert applied to an
existing row: every non-key column except created_at is overwritten and
updated_at is stamped with the write time. -/
def SqlStorage.updatedRow (now : Int) (s : SessionUnion) (r : SqlRow) : SqlRow :=
  { r with
    eid := s.entity_id
    user_id := s.user_id
    memory := s.memory
    edata := s.entity_data
    session_data := s.session_data
    extra_data := s.extra_data
    updated_at := Option.some now }

theorem valToOptStr_optStrVal (x : Option String) : valToOptStr (optStrVal x) = x := by
  cases x <;> rfl

theorem valToOptInt_optIntVal (x : Option Int) : valToOptInt (optIntVal x) = x := by
  cases x <;> rfl

theorem valToOptInt_int (n : Int) : valToOptInt (Val.int n) = Option.some n := rfl

/-- Writing a file and looking it up by the same name yields the written
content. -/
theorem lookupFile_writeFile (st : FileStore) (sid : String) (c : FileContent) :
    lookupFile (writeFile st sid c) sid = Option.some c := by
  unfold lookupFile writeFile
  cases hA : st.any (fun p => p.1 == sid) with
  | false =>
      rw [if_neg Bool.false_ne_true]
      rw [List.find?_append]
      have hnone : st.find? (fun p : String × FileContent => p.1 == sid) = Option.none := by
        rw [List.find?_eq_none]
        intro x hx
        simpa using List.any_eq_false.mp hA x hx
      rw [hnone]
      simp [List.find?]
  | true =>
      rw [if_pos rfl]
      rw [List.find?_map]
      have hpred : ((fun p : String × FileContent => p.1 == sid) ∘
          (fun p => if p.1 == sid then (sid, c) else p))
          = fun p : String × FileContent => p.1 == sid := by
        funext p
        by_cases hp : p.1 = sid
        · simp [Function.comp, hp]
        · simp [Function.comp, beq_eq_false_iff_ne.mpr hp]
      rw [hpred]
      obtain ⟨q, hqm, hq⟩ := List.any_eq_true.mp hA
      cases hfind : st.find? (fun p : String × FileContent => p.1 == sid) with
      | none =>
          exact absurd (by simpa using hq)
            (by simpa using List.find?_eq_none.mp hfind q hqm)
      | some q2 =>
          have hq2 : q2.1 = sid := by simpa using List.find?_some hfind
          simp [hq2]

/-- The dict persisted by the document backend for a workflow session: the
asdict list with updated_at replaced by the write time. The created_at guard
of the source never fires, since the key is present. -/
theorem upsertData_workflow_eq (now : Int) (s : WorkflowSession) :
    YamlStorage.upsertData now (SessionUnion.workflow s) =
      [("session_id", Val.str s.session_id),
       ("user_id", optStrVal s.user_id),
       ("memory", optStrVal s.memory),
       ("session_data", optStrVal s.session_data),
       ("extra_data", optStrVal s.extra_data),
       ("created_at", optIntVal s.created_at),
       ("updated_at", Val.int now),
       ("workflow_id", optStrVal s.workflow_id),
       ("workflow_data", optStrVal s.workflow_data)] := rfl

/-- The dict persisted by the document backend for an agent session. -/
theorem upsertData_agent_eq (now : Int) (s : AgentSession) :
    YamlStorage.upsertData now (SessionUnion.agent s) =
      [("session_id", Val.str s.session_id),
       ("user_id", optStrVal s.user_id),
       ("memory", optStrVal s.memory),
       ("session_data", optStrVal s.session_data),
       ("extra_data", optStrVal s.extra_data),
       ("created_at", optIntVal s.created_at),
       ("updated_at", Val.int now),
       ("agent_id", optStrVal s.agent_id),
       ("agent_data", optStrVal s.agent_data)] := rfl

/-- Deserializing the persisted dict of a workflow session reproduces the
session, with only updated_at rewritten to the write time. -/
theorem fromDict_upsertData_workflow (now : Int) (s : WorkflowSession) :
    WorkflowSession.fromDict (YamlStorage.upsertData now (SessionUnion.workflow s)) =
      Option.some { s with updated_at := Option.some now } := by
  rw [upsertData_workflow_eq]
  simp [WorkflowSession.fromDict, dictGetD, List.find?, valToOptStr_optStrVal,
    valToOptInt_optIntVal, valToOptInt_int]

/-- Deserializing the persisted dict of an agent session reproduces the
session, with only updated_at rewritten to the write time. -/
theorem fromDict_upsertData_agent (now : Int) (s : AgentSession) :
    AgentSession.fromDict (YamlStorage.upsertData now (SessionUnion.agent s)) =
      Option.some { s with updated_at := Option.some now } := by
  rw [upsertData_agent_eq]
  simp [AgentSession.fromDict, dictGetD, List.find?, valToOptStr_optStrVal,
    valToOptInt_optIntVal, valToOptInt_int]

/-- Document-backend round trip: reading back, with no user filter and in the
mode of the session, the file just persisted by upsert yields the session with
only updated_at rewritten to the write time. -/
theorem yaml_read_after_upsert (st : FileStore) (now : Int) (s : SessionUnion) :
    YamlStorage.read s.mode (YamlStorage.upsert now st s).1 s.session_id
      Option.none = Except.ok (Option.some (s.withUpdatedAt (Option.some now))) := by
  cases s with
  | agent a =>
      unfold YamlStorage.read YamlStorage.upsert
      rw [lookupFile_writeFile]
      simp [deserialize, optTruthy, SessionUnion.mode, fromDict_upsertData_agent,
        SessionUnion.withUpdatedAt, SessionUnion.session_id]
  | workflow w =>
      unfold YamlStorage.read YamlStorage.upsert
      rw [lookupFile_writeFile]
      simp [deserialize, optTruthy, SessionUnion.mode, fromDict_upsertData_workflow,
        SessionUnion.withUpdatedAt, SessionUnion.session_id]

/-- The upsert statement on a fresh session_id appends the inserted row. -/
theorem upsertStmt_insert (now : Int) (st : SqlStore) (s : SessionUnion)
    (hfresh : st.rows.any (fun r => r.session_id == s.session_id) = false) :
    SqlStorage.upsertStmt now st s =
      { st with rows := st.rows ++ [SqlStorage.insertedRow now s] } := by
  unfold SqlStorage.upsertStmt
  rw [hfresh]
  simp [SqlStorage.insertedRow]

/-- The upsert statement on a present session_id rewrites every matching row
with the on-conflict update. -/
theorem upsertStmt_update (now : Int) (st : SqlStore) (s : SessionUnion)
    (hany : st.rows.any (fun r => r.session_id == s.session_id) = true) :
    SqlStorage.upsertStmt now st s =
      { st with rows := st.rows.map (fun r =>
          if r.session_id == s.session_id then SqlStorage.updatedRow now s r
          else r) } := by
  unfold SqlStorage.upsertStmt
  rw [hany]
  simp [SqlStorage.updatedRow]

/-- After inserting a fresh session_id, the primary-key lookup finds exactly
the inserted row. -/
theorem find_after_insert (now : Int) (st : SqlStore) (s : SessionUnion)
    (hfresh : st.rows.any (fun r => r.session_id == s.session_id) = false) :
    (st.rows ++ [SqlStorage.insertedRow now s]).find?
        (fun r => r.session_id == s.session_id)
      = Option.some (SqlStorage.insertedRow now s) := by
  rw [List.find?_append]
  have hnone : st.rows.find? (fun r => r.session_id == s.session_id) = Option.none := by
    rw [List.find?_eq_none]
    intro x hx
    simpa using List.any_eq_false.mp hfresh x hx
  rw [hnone]
  simp [List.find?, SqlStorage.insertedRow]

/-- After the on-conflict update, the primary-key lookup finds the update of
the row it found before. -/
theorem find_after_update (now : Int) (st : SqlStore) (s : SessionUnion)
    (r : SqlRow)
    (hfind : st.rows.find? (fun x => x.session_id == s.session_id) = Option.some r) :
    (st.rows.map (fun x =>
        if x.session_id == s.session_id then SqlStorage.updatedRow now s x
        else x)).find? (fun x => x.session_id == s.session_id)
      = Option.some (SqlStorage.updatedRow now s r) := by
  rw [List.find?_map]
  have hpred : ((fun x : SqlRow => x.session_id == s.session_id) ∘
      (fun x => if x.session_id == s.session_id then SqlStorage.updatedRow now s x
                else x))
      = fun x : SqlRow => x.session_id == s.session_id := by
    funext x
    by_cases hx : x.session_id = s.session_id
    · simp [Function.comp, hx, SqlStorage.updatedRow]
    · simp [Function.comp, beq_eq_false_iff_ne.mpr hx]
  rw [hpred, hfind]
  have hr : r.session_id = s.session_id := by simpa using List.find?_some hfind
  simp [hr]

/-- A fault-free transactional upsert of a fresh session_id against an
existing table inserts one row (created_at stamped with the write time,
updated_at NULL) and returns the freshly-read record: the input with
created_at overwritten by the store and updated_at unset. -/
theorem sql_upsert_fresh (now : Int) (st : SqlStore) (s : SessionUnion)
    (htab : st.tableExists = true)
    (hfresh : st.rows.any (fun r => r.session_id == s.session_id) = false) :
    SqlStorage.upsert s.mode now false st s true =
      ({ st with rows := st.rows ++ [SqlStorage.insertedRow now s] },
       Option.some ((s.withUpdatedAt Option.none).withCreatedAt (Option.some now))) := by
  unfold SqlStorage.upsert SqlStorage.upsertAttempt
  rw [htab]
  simp only [Bool.not_true, Bool.false_eq_true, if_false, if_neg]
  rw [upsertStmt_insert now st s hfresh]
  unfold SqlStorage.read
  rw [htab]
  simp only [Bool.not_true, Bool.false_eq_true, if_false, optTruthy]
  rw [find_after_insert now st s hfresh]
  cases s with
  | agent a =>
      simp [SqlStorage.rowToRec, SqlStorage.insertedRow, SessionUnion.mode,
        SessionUnion.withUpdatedAt, SessionUnion.withCreatedAt,
        SessionUnion.session_id, SessionUnion.user_id, SessionUnion.memory,
        SessionUnion.session_data, SessionUnion.extra_data,
        SessionUnion.entity_id, SessionUnion.entity_data]
  | workflow w =>
      simp [SqlStorage.rowToRec, SqlStorage.insertedRow, SessionUnion.mode,
        SessionUnion.withUpdatedAt, SessionUnion.withCreatedAt,
        SessionUnion.session_id, SessionUnion.user_id, SessionUnion.memory,
        SessionUnion.session_data, SessionUnion.extra_data,
        SessionUnion.entity_id, SessionUnion.entity_data]

/-- A fault-free transactional upsert of a present session_id updates the
matching rows in place (created_at untouched, updated_at stamped) and returns
the freshly-read record: the input with updated_at set to the write time and
created_at the stored row's prior value. -/
theorem sql_upsert_existing (now : Int) (st : SqlStore) (s : SessionUnion)
    (r : SqlRow) (htab : st.tableExists = true)
    (hfind : st.rows.find? (fun x => x.session_id == s.session_id) = Option.some r) :
    SqlStorage.upsert s.mode now false st s true =
      ({ st with rows := st.rows.map (fun x =>
           if x.session_id == s.session_id then SqlStorage.updatedRow now s x
           else x) },
       Option.some ((s.withUpdatedAt (Option.some now)).withCreatedAt r.created_at)) := by
  have hp := List.find?_some hfind
  have hr : r.session_id = s.session_id := by simpa using hp
  have hany : st.rows.any (fun x => x.session_id == s.session_id) = true := by
    rw [List.any_eq_true]
    exact ⟨r, List.mem_of_find?_eq_some hfind, hp⟩
  unfold SqlStorage.upsert SqlStorage.upsertAttempt
  rw [htab]
  simp only [Bool.not_true, Bool.false_eq_true, if_false, if_neg]
  rw [upsertStmt_update now st s hany]
  unfold SqlStorage.read
  rw [htab]
  simp only [Bool.not_true, Bool.false_eq_true, if_false, optTruthy]
  rw [find_after_update now st s r hfind]
  cases s with
  | agent a =>
      simp [SqlStorage.rowToRec, SqlStorage.updatedRow, SessionUnion.mode,
        SessionUnion.withUpdatedAt, SessionUnion.withCreatedAt,
        SessionUnion.session_id, SessionUnion.user_id, SessionUnion.memory,
        SessionUnion.session_data, SessionUnion.extra_data,
        SessionUnion.entity_id, SessionUnion.entity_data, hr]
  | workflow w =>
      simp [SqlStorage.rowToRec, SqlStorage.updatedRow, SessionUnion.mode,
        SessionUnion.withUpdatedAt, SessionUnion.withCreatedAt,
        SessionUnion.session_id, SessionUnion.user_id, SessionUnion.memory,
        SessionUnion.session_data, SessionUnion.extra_data,
        SessionUnion.entity_id, SessionUnion.entity_data, hr]

/-- With create_and_retry false, upsert and upsertOnce coincide: the guard of
the retry branch can never hold, so a failure returns None at once. -/
theorem sql_upsert_false_eq_upsertOnce (mode : Mode) (now : Int) (fault : Bool)
    (st : SqlStore) (s : SessionUnion) :
    SqlStorage.upsert mode now fault st s false =
      SqlStorage.upsertOnce mode now fault st s := by
  unfold SqlStorage.upsert SqlStorage.upsertOnce
  cases SqlStorage.upsertAttempt now fault st s with
  | ok st2 => rfl
  | error e => simp

/-- The rows produced by the listing SELECT are sorted by created_at
descending. -/
theorem listRows_sorted (st : SqlStore) (uid eid : Option String) :
    List.Sorted SqlStorage.rowGE (SqlStorage.listRows st uid eid) :=
  List.sorted_insertionSort SqlStorage.rowGE _

/-- The rows produced by the listing SELECT are a permutation of the rows
passing the filters. -/
theorem listRows_perm (st : SqlStore) (uid eid : Option String) :
    (SqlStorage.listRows st uid eid).Perm
      (st.rows.filter (fun r =>
        (uid.isNone || (r.user_id == uid)) &&
        (eid.isNone || (r.eid == eid)))) :=
  List.perm_insertionSort SqlStorage.rowGE _

/-- The created_at of a rebuilt record is the created_at of its row. -/
theorem sessKey_rowToRec (mode : Mode) (r : SqlRow) :
    sessKey (SqlStorage.rowToRec mode r) = r.created_at.getD 0 := by
  cases mode <;> rfl

/-- C1, counterexample. The claim states that for every backend, upsert(S)
then read(S.session_id) returns a record equal to S on every field except
updated_at, the returned updated_at being at least the write-time value. On
the transactional backend a first upsert of a session with created_at = 5 at
write time 100 reads back created_at = 100: the record differs from S on
created_at, and the read-back updated_at is unset rather than at least the
write time. -/
theorem C1_counterexample :
    ((SqlStorage.upsert Mode.workflow 100 false { tableExists := true, rows := [] }
        (SessionUnion.workflow { session_id := "s1", created_at := Option.some 5 })
        true).2.map SessionUnion.created_at) = Option.some (Option.some 100)
    ∧ ((SqlStorage.upsert Mode.workflow 100 false { tableExists := true, rows := [] }
        (SessionUnion.workflow { session_id := "s1", created_at := Option.some 5 })
        true).2.map SessionUnion.updated_at) = Option.some Option.none
    ∧ Option.some (100 : Int) ≠ Option.some (5 : Int) := by
  refine ⟨rfl, rfl, by decide⟩

/-- C1, amended: upsert(S) then read(S.session_id) returns a record equal to
S on every field except the timestamps. In the document backend only
updated_at differs, being exactly the write time (hence at least it). In the
transactional backends, a first-time upsert reads back S with created_at
store-assigned to the write time and updated_at unset, and an upsert of an
already-stored session_id reads back S with updated_at equal to the write
time and created_at the previously stored value. -/
theorem C1_round_trip_amended :
    (∀ (st : FileStore) (now : Int) (s : SessionUnion),
      YamlStorage.read s.mode (YamlStorage.upsert now st s).1 s.session_id
        Option.none = Except.ok (Option.some (s.withUpdatedAt (Option.some now))))
    ∧ (∀ (now : Int) (st : SqlStore) (s : SessionUnion),
        st.tableExists = true →
        st.rows.any (fun r => r.session_id == s.session_id) = false →
        (SqlStorage.upsert s.mode now false st s true).2 =
          Option.some ((s.withUpdatedAt Option.none).withCreatedAt (Option.some now)))
    ∧ (∀ (now : Int) (st : SqlStore) (s : SessionUnion) (r : SqlRow),
        st.tableExists = true →
        st.rows.find? (fun x => x.session_id == s.session_id) = Option.some r →
        (SqlStorage.upsert s.mode now false st s true).2 =
          Option.some ((s.withUpdatedAt (Option.some now)).withCreatedAt r.created_at)) := by
  refine ⟨fun st now s => yaml_read_after_upsert st now s, ?_, ?_⟩
  · intro now st s htab hfresh
    rw [sql_upsert_fresh now st s htab hfresh]
  · intro now st s r htab hfind
    rw [sql_upsert_existing now st s r htab hfind]

/-- C1, witness: the amended round trip evaluated at a concrete fresh insert
and at a concrete second upsert of the same session_id. -/
theorem C1_round_trip_amended_witness :
    (SqlStorage.upsert Mode.workflow 7 false { tableExists := true, rows := [] }
        (SessionUnion.workflow { session_id := "w1" }) true).2 =
      Option.some (SessionUnion.workflow
        { session_id := "w1", created_at := Option.some 7 })
    ∧ (SqlStorage.upsert Mode.workflow 9 false
        { tableExists := true, rows := [SqlStorage.insertedRow 7
            (SessionUnion.workflow { session_id := "w1" })] }
        (SessionUnion.workflow { session_id := "w1" }) true).2 =
      Option.some (SessionUnion.workflow
        { session_id := "w1", created_at := Option.some 7,
          updated_at := Option.some 9 }) := by
  constructor
  · exact C1_round_trip_amended.2.1 7 { tableExists := true, rows := [] }
      (SessionUnion.workflow { session_id := "w1" }) rfl rfl
  · exact C1_round_trip_amended.2.2 9
      { tableExists := true, rows := [SqlStorage.insertedRow 7
          (SessionUnion.workflow { session_id := "w1" })] }
      (SessionUnion.workflow { session_id := "w1" })
      (SqlStorage.insertedRow 7 (SessionUnion.workflow { session_id := "w1" }))
      rfl (by decide)

/-- C2, counterexample. The claim states that for every backend a second
upsert of an existing session_id leaves the stored created_at unchanged. In
the document backend, upserting session "s" with created_at = 1 and then
re-upserting the same session_id with created_at = 2 changes the stored
created_at from 1 to 2: the file is overwritten wholesale with the incoming
value. -/
theorem C2_counterexample :
    YamlStorage.storedVal
        (YamlStorage.upsert 10 []
          (SessionUnion.workflow { session_id := "s", created_at := Option.some 1 })).1
        "s" "created_at" = Option.some (Val.int 1)
    ∧ YamlStorage.storedVal
        (YamlStorage.upsert 20
          (YamlStorage.upsert 10 []
            (SessionUnion.workflow { session_id := "s", created_at := Option.some 1 })).1
          (SessionUnion.workflow { session_id := "s", created_at := Option.some 2 })).1
        "s" "created_at" = Option.some (Val.int 2)
    ∧ Val.int 2 ≠ Val.int 1 := by
  refine ⟨rfl, rfl, by decide⟩

/-- C2, amended: in the transactional backends a second upsert of an existing
session_id leaves every stored created_at (and session_id) unchanged; in the
document backend the stored created_at after an upsert is the incoming
session's created_at, so a re-upsert preserves it only when the caller passes
the previously stored value back. -/
theorem C2_created_at_amended :
    (∀ (now : Int) (st : SqlStore) (s : SessionUnion),
      st.tableExists = true →
      st.rows.any (fun r => r.session_id == s.session_id) = true →
      ((SqlStorage.upsert s.mode now false st s true).1).rows.map
          (fun r => (r.session_id, r.created_at)) =
        st.rows.map (fun r => (r.session_id, r.created_at)))
    ∧ (∀ (now : Int) (st : FileStore) (s : SessionUnion),
        YamlStorage.storedVal ((YamlStorage.upsert now st s).1) s.session_id
          "created_at" = Option.some (optIntVal s.created_at)) := by
  constructor
  · intro now st s htab hany
    obtain ⟨r, hrm, hrp⟩ := List.any_eq_true.mp hany
    cases hfind : st.rows.find? (fun x => x.session_id == s.session_id) with
    | none =>
        have h1 : r.session_id = s.session_id := by simpa using hrp
        have h2 : ¬ r.session_id = s.session_id := by
          simpa using List.find?_eq_none.mp hfind r hrm
        exact absurd h1 h2
    | some r2 =>
        rw [sql_upsert_existing now st s r2 htab hfind]
        simp only [List.map_map]
        apply List.map_congr_left
        intro x hx
        by_cases hxs : x.session_id = s.session_id
        · simp [Function.comp, hxs, SqlStorage.updatedRow]
        · simp [Function.comp, beq_eq_false_iff_ne.mpr hxs]
  · intro now st s
    unfold YamlStorage.storedVal YamlStorage.upsert
    rw [lookupFile_writeFile]
    cases s with
    | agent a => rw [upsertData_agent_eq]; rfl
    | workflow w => rw [upsertData_workflow_eq]; rfl

/-- C2, witness: the amended invariant evaluated at a concrete store holding
session "s" with created_at = 3, re-upserted at time 50. -/
theorem C2_created_at_amended_witness :
    ((SqlStorage.upsert Mode.workflow 50 false
        { tableExists := true,
          rows := [{ session_id := "s", eid := Option.none, user_id := Option.none,
                     memory := Option.none, edata := Option.none,
                     session_data := Option.none, extra_data := Option.none,
                     created_at := Option.some 3, updated_at := Option.none }] }
        (SessionUnion.workflow { session_id := "s" }) true).1).rows.map
        (fun r => (r.session_id, r.created_at)) = [("s", Option.some 3)]
    ∧ YamlStorage.storedVal
        ((YamlStorage.upsert 50 []
          (SessionUnion.workflow { session_id := "s", created_at := Option.some 3 })).1)
        "s" "created_at" = Option.some (optIntVal (Option.some 3)) := by
  constructor
  · have h := C2_created_at_amended.1 50
      { tableExists := true,
        rows := [{ session_id := "s", eid := Option.none, user_id := Option.none,
                   memory := Option.none, edata := Option.none,
                   session_data := Option.none, extra_data := Option.none,
                   created_at := Option.some 3, updated_at := Option.none }] }
      (SessionUnion.workflow { session_id := "s" }) rfl (by decide)
    simpa using h
  · exact C2_created_at_amended.2 50 []
      (SessionUnion.workflow { session_id := "s", created_at := Option.some 3 })

/-- C3: the claim matches the intent of yaml.py lines 104-107 (first-write
semantics for created_at), but the guard tests key absence while asdict always
includes the created_at key, so it never fires: upserting session "s2" with no
created_at at write time 42 persists created_at = None, not 42, diverging from
the persisted updated_at = 42. -/
theorem C3_created_at_first_write_bug :
    YamlStorage.storedVal
        ((YamlStorage.upsert 42 [] (SessionUnion.workflow { session_id := "s2" })).1)
        "s2" "created_at" = Option.some Val.null
    ∧ YamlStorage.storedVal
        ((YamlStorage.upsert 42 [] (SessionUnion.workflow { session_id := "s2" })).1)
        "s2" "updated_at" = Option.some (Val.int 42)
    ∧ Option.some Val.null ≠ Option.some (Val.int 42) := by
  refine ⟨rfl, rfl, by decide⟩

/-- C4, counterexample. The claim states that every backend's upsert returns
the persisted record as freshly re-read from the store. The document backend
returns the caller's in-memory session unchanged: upserting session "x" with
no updated_at at write time 7 returns a record whose updated_at is None,
while the freshly-read persisted record carries updated_at = 7. -/
theorem C4_counterexample :
    (YamlStorage.upsert 7 [] (SessionUnion.workflow { session_id := "x" })).2
      = Option.some (SessionUnion.workflow { session_id := "x" })
    ∧ YamlStorage.read Mode.workflow
        (YamlStorage.upsert 7 [] (SessionUnion.workflow { session_id := "x" })).1
        "x" Option.none
      = Except.ok (Option.some (SessionUnion.workflow
          { session_id := "x", updated_at := Option.some 7 }))
    ∧ Option.some (SessionUnion.workflow { session_id := "x" })
        ≠ Option.some (SessionUnion.workflow
          { session_id := "x", updated_at := Option.some 7 }) := by
  refine ⟨rfl, rfl, by decide⟩

/-- C4, amended: the transactional backends return, on a successful statement
execution, exactly the result of re-reading the persisted record from the
fresh store state; the document backend returns the caller's in-memory input
session, which does not reflect the store-assigned updated_at. -/
theorem C4_returns_reread_amended :
    (∀ (mode : Mode) (now : Int) (fault : Bool) (st st2 : SqlStore)
        (s : SessionUnion) (car : Bool),
      SqlStorage.upsertAttempt now fault st s = Except.ok st2 →
      SqlStorage.upsert mode now fault st s car =
        SqlStorage.read mode fault st2 s.session_id Option.none)
    ∧ (∀ (now : Int) (st : FileStore) (s : SessionUnion),
        (YamlStorage.upsert now st s).2 = Option.some s) := by
  constructor
  · intro mode now fault st st2 s car h
    unfold SqlStorage.upsert
    rw [h]
  · intro now st s
    rfl

/-- C4, witness: the amended statement evaluated at a concrete successful
insert. -/
theorem C4_returns_reread_amended_witness :
    SqlStorage.upsert Mode.workflow 3 false { tableExists := true, rows := [] }
        (SessionUnion.workflow { session_id := "y" }) true =
      SqlStorage.read Mode.workflow false
        (SqlStorage.upsertStmt 3 { tableExists := true, rows := [] }
          (SessionUnion.workflow { session_id := "y" }))
        "y" Option.none := by
  exact C4_returns_reread_amended.1 Mode.workflow 3 false
    { tableExists := true, rows := [] }
    (SqlStorage.upsertStmt 3 { tableExists := true, rows := [] }
      (SessionUnion.workflow { session_id := "y" }))
    (SessionUnion.workflow { session_id := "y" }) true rfl

/-- C5, counterexample. The claim states that every backend's listing returns
records sorted by created_at descending. The document backend performs a
directory scan with no sorting: with files for sessions "a" (created_at 1,
written first) and "b" (created_at 2, written second), get_all_sessions
returns them in scan order with created_at keys [1, 2], which is not
descending. -/
theorem C5_counterexample :
    (YamlStorage.getAllSessions Mode.workflow
        (YamlStorage.upsert 20
          (YamlStorage.upsert 10 []
            (SessionUnion.workflow { session_id := "a", created_at := Option.some 1 })).1
          (SessionUnion.workflow { session_id := "b", created_at := Option.some 2 })).1
        Option.none Option.none).map (fun l => l.map sessKey)
      = Except.ok [(1 : Int), 2]
    ∧ ¬ ((2 : Int) ≤ 1) := by
  refine ⟨rfl, by decide⟩

/-- C5, amended: the transactional backends return the filter-passing records
sorted by created_at descending (a permutation of the filtered rows, rebuilt
by the from_dict of the mode), and their get_all_session_ids lists the
session_ids in the same descending order; the document backend returns the
matching records in directory-scan order, with no sorting. -/
theorem C5_ordering_amended :
    (∀ (mode : Mode) (st : SqlStore) (uid eid : Option String),
      st.tableExists = true →
      List.Sorted (fun a b => sessKey b ≤ sessKey a)
        ((SqlStorage.getAllSessions mode false st uid eid).2))
    ∧ (∀ (mode : Mode) (st : SqlStore) (uid eid : Option String),
        st.tableExists = true →
        ((SqlStorage.getAllSessions mode false st uid eid).2).Perm
          ((st.rows.filter (fun r =>
            (uid.isNone || (r.user_id == uid)) &&
            (eid.isNone || (r.eid == eid)))).map (SqlStorage.rowToRec mode)))
    ∧ (∀ (st : SqlStore) (uid eid : Option String),
        st.tableExists = true →
        (SqlStorage.getAllSessionIds false st uid eid).2 =
          (SqlStorage.listRows st uid eid).map (fun r => r.session_id)) := by
  refine ⟨?_, ?_, ?_⟩
  · intro mode st uid eid htab
    unfold SqlStorage.getAllSessions
    rw [htab]
    simp only [Bool.not_true, Bool.false_eq_true, if_false]
    rw [List.Sorted, List.pairwise_map]
    apply List.Pairwise.imp ?_ (listRows_sorted st uid eid)
    intro a b hab
    rw [sessKey_rowToRec, sessKey_rowToRec]
    exact hab
  · intro mode st uid eid htab
    unfold SqlStorage.getAllSessions
    rw [htab]
    simp only [Bool.not_true, Bool.false_eq_true, if_false]
    exact List.Perm.map (SqlStorage.rowToRec mode) (listRows_perm st uid eid)
  · intro st uid eid htab
    unfold SqlStorage.getAllSessionIds
    rw [htab]
    simp only [Bool.not_true, Bool.false_eq_true, if_false]

/-- C5, witness: the amended ordering evaluated at a concrete two-row store
whose rows were inserted oldest-first. -/
theorem C5_ordering_amended_witness :
    List.Sorted (fun a b => sessKey b ≤ sessKey a)
      ((SqlStorage.getAllSessions Mode.workflow false
        { tableExists := true,
          rows := [{ session_id := "a", eid := Option.none, user_id := Option.none,
                     memory := Option.none, edata := Option.none,
                     session_data := Option.none, extra_data := Option.none,
                     created_at := Option.some 1, updated_at := Option.none },
                   { session_id := "b", eid := Option.none, user_id := Option.none,
                     memory := Option.none, edata := Option.none,
                     session_data := Option.none, extra_data := Option.none,
                     created_at := Option.some 2, updated_at := Option.none }] }
        Option.none Option.none).2) := by
  exact C5_ordering_amended.1 Mode.workflow
    { tableExists := true,
      rows := [{ session_id := "a", eid := Option.none, user_id := Option.none,
                 memory := Option.none, edata := Option.none,
                 session_data := Option.none, extra_data := Option.none,
                 created_at := Option.some 1, updated_at := Option.none },
               { session_id := "b", eid := Option.none, user_id := Option.none,
                 memory := Option.none, edata := Option.none,
                 session_data := Option.none, extra_data := Option.none,
                 created_at := Option.some 2, updated_at := Option.none }] }
    Option.none Option.none rfl

/-- C6, counterexample. The claim states no exception escapes any runtime
storage operation. The document backend's get_all_session_ids has no
exception handler at all: scanning a directory holding one malformed document
raises the deserialization error to the caller instead of returning a
sentinel. -/
theorem C6_counterexample :
    YamlStorage.getAllSessionIds Mode.workflow [("s1", FileContent.malformed)]
      Option.none Option.none = Except.error PyErr.yamlError := rfl

/-- C6, amended: the fail-soft rule holds for the transactional backends
(missing-table and transient statement failures in read, upsert and listing
are converted to None or the empty list) and for the document backend's
upsert and delete_session; but the document backend's read catches only
file-not-found, letting deserialization failures escape, and its listing
operations catch nothing, propagating the first deserialization failure. -/
theorem C6_fail_soft_amended :
    (∀ (mode : Mode) (st : FileStore) (sid : String) (uid : Option String),
      lookupFile st sid = Option.none →
      YamlStorage.read mode st sid uid = Except.ok Option.none)
    ∧ (∀ (mode : Mode) (st : FileStore) (sid : String) (uid : Option String),
        lookupFile st sid = Option.some FileContent.malformed →
        YamlStorage.read mode st sid uid = Except.error PyErr.yamlError)
    ∧ (∀ (mode : Mode) (k : String) (rest : FileStore) (uid eid : Option String),
        YamlStorage.getAllSessionIds mode ((k, FileContent.malformed) :: rest) uid eid
          = Except.error PyErr.yamlError)
    ∧ (∀ (mode : Mode) (st : SqlStore) (sid : String) (uid : Option String),
        st.tableExists = true →
        SqlStorage.read mode true st sid uid = (st, Option.none))
    ∧ (∀ (mode : Mode) (now : Int) (st : SqlStore) (s : SessionUnion) (car : Bool),
        st.tableExists = true →
        SqlStorage.upsert mode now true st s car = (st, Option.none))
    ∧ (∀ (mode : Mode) (st : SqlStore) (uid eid : Option String),
        st.tableExists = true →
        SqlStorage.getAllSessions mode true st uid eid = (st, [])) := by
  refine ⟨?_, ?_, ?_, ?_, ?_, ?_⟩
  · intro mode st sid uid h
    unfold YamlStorage.read
    rw [h]
  · intro mode st sid uid h
    unfold YamlStorage.read
    rw [h]
    rfl
  · intro mode k rest uid eid
    rfl
  · intro mode st sid uid htab
    unfold SqlStorage.read
    rw [htab]
    simp
  · intro mode now st s car htab
    unfold SqlStorage.upsert SqlStorage.upsertAttempt
    rw [htab]
    simp
  · intro mode st uid eid htab
    unfold SqlStorage.getAllSessions
    rw [htab]
    simp

/-- C6, witness: the amended fail-soft statement evaluated at a concrete
missing file, a concrete malformed file, and a concrete faulted transactional
read. -/
theorem C6_fail_soft_amended_witness :
    YamlStorage.read Mode.workflow [] "gone" Option.none = Except.ok Option.none
    ∧ YamlStorage.read Mode.workflow [("m", FileContent.malformed)] "m" Option.none
        = Except.error PyErr.yamlError
    ∧ SqlStorage.read Mode.workflow true { tableExists := true, rows := [] }
        "a" Option.none = ({ tableExists := true, rows := [] }, Option.none) := by
  refine ⟨?_, ?_, ?_⟩
  · exact C6_fail_soft_amended.1 Mode.workflow [] "gone" Option.none rfl
  · exact C6_fail_soft_amended.2.1 Mode.workflow [("m", FileContent.malformed)]
      "m" Option.none rfl
  · exact C6_fail_soft_amended.2.2.2.1 Mode.workflow
      { tableExists := true, rows := [] } "a" Option.none rfl

/-- C7, counterexample. The claim states read(id, user_id=U) returns none
whenever the stored user_id differs from U. Both backends apply the filter
only when U is truthy: with stored user_id "u1" and U the empty string (a
string different from "u1"), read returns the record instead of none. -/
theorem C7_counterexample :
    YamlStorage.read Mode.workflow
        (YamlStorage.upsert 5 []
          (SessionUnion.workflow { session_id := "s1", user_id := Option.some "u1" })).1
        "s1" (Option.some "")
      = Except.ok (Option.some (SessionUnion.workflow
          { session_id := "s1", user_id := Option.some "u1",
            updated_at := Option.some 5 }))
    ∧ Option.some "u1" ≠ Option.some "" := by
  refine ⟨rfl, by decide⟩

/-- Indexing the persisted upsert dict at user_id yields the session's
user_id value. -/
theorem dictIndex_upsertData_user (now : Int) (s : SessionUnion) :
    dictIndex (YamlStorage.upsertData now s) "user_id" =
      Except.ok (optStrVal s.user_id) := by
  cases s <;> rfl

/-- C7, amended: for every non-empty user id U, read(id, user_id=U) returns
none when the stored record's user_id differs from U, while read(id) with no
filter returns the record; when U is empty (or None) the filter is skipped,
the call behaving like an unfiltered read. Stated for a document store
holding the record persisted by upsert and for a transactional store whose
rows with the looked-up session_id all carry the stored user id. -/
theorem C7_user_filter_amended :
    (∀ (mode : Mode) (st : FileStore) (sid : String) (now : Int)
        (s : SessionUnion) (U : String),
      lookupFile st sid = Option.some (FileContent.doc (YamlStorage.upsertData now s)) →
      U ≠ "" → s.user_id ≠ Option.some U →
      YamlStorage.read mode st sid (Option.some U) = Except.ok Option.none)
    ∧ (∀ (st : FileStore) (sid : String) (now : Int) (s : SessionUnion),
        lookupFile st sid = Option.some (FileContent.doc (YamlStorage.upsertData now s)) →
        YamlStorage.read s.mode st sid Option.none =
          Except.ok (Option.some (s.withUpdatedAt (Option.some now))))
    ∧ (∀ (mode : Mode) (st : SqlStore) (sid : String) (v U : String),
        st.tableExists = true →
        (∀ x ∈ st.rows, x.session_id = sid → x.user_id = Option.some v) →
        U ≠ "" → U ≠ v →
        SqlStorage.read mode false st sid (Option.some U) = (st, Option.none))
    ∧ (∀ (mode : Mode) (st : SqlStore) (sid : String) (r : SqlRow),
        st.tableExists = true →
        st.rows.find? (fun x => x.session_id == sid) = Option.some r →
        SqlStorage.read mode false st sid Option.none =
          (st, SqlStorage.rowToRec mode r)) := by
  refine ⟨?_, ?_, ?_, ?_⟩
  · intro mode st sid now s U hlook hU hne
    have hTr : optTruthy (Option.some U) = true := by
      simp [optTruthy, beq_eq_false_iff_ne.mpr hU]
    have hv : (optStrVal s.user_id == optStrVal (Option.some U)) = false := by
      cases hu : s.user_id with
      | none => rfl
      | some u =>
          have huU : u ≠ U := fun he => hne (by rw [hu, he])
          simpa [optStrVal] using huU
    unfold YamlStorage.read
    rw [hlook]
    simp only [deserialize, Bind.bind, Except.bind, hTr]
    rw [dictIndex_upsertData_user]
    simp only [Bind.bind, Except.bind]
    rw [hv]
    rfl
  · intro st sid now s hlook
    cases s with
    | agent a =>
        unfold YamlStorage.read
        rw [hlook]
        simp [deserialize, optTruthy, SessionUnion.mode, fromDict_upsertData_agent,
          SessionUnion.withUpdatedAt]
    | workflow w =>
        unfold YamlStorage.read
        rw [hlook]
        simp [deserialize, optTruthy, SessionUnion.mode, fromDict_upsertData_workflow,
          SessionUnion.withUpdatedAt]
  · intro mode st sid v U htab huser hU hne
    have hTr : optTruthy (Option.some U) = true := by
      simp [optTruthy, beq_eq_false_iff_ne.mpr hU]
    unfold SqlStorage.read
    rw [htab]
    have hnone : st.rows.find?
        (fun r => r.session_id == sid && r.user_id == Option.some U) = Option.none := by
      rw [List.find?_eq_none]
      intro x hx hpx
      rw [Bool.and_eq_true] at hpx
      have h1 : x.session_id = sid := by simpa using hpx.1
      have h2 : x.user_id = Option.some U := by simpa using hpx.2
      have h3 := huser x hx h1
      rw [h2] at h3
      exact hne (by simpa using h3)
    simp only [Bool.not_true, Bool.false_eq_true, if_false, hTr, if_true]
    rw [hnone]
    rfl
  · intro mode st sid r htab hfind
    unfold SqlStorage.read
    rw [htab]
    simp only [Bool.not_true, Bool.false_eq_true, if_false, optTruthy]
    rw [hfind]
    rfl

/-- C7, witness: the amended filter rules evaluated at a concrete document
store holding user "u1" (filtered with "u2" and read unfiltered) and at a
concrete one-row transactional store. -/
theorem C7_user_filter_amended_witness :
    YamlStorage.read Mode.workflow
        (YamlStorage.upsert 5 []
          (SessionUnion.workflow { session_id := "s1", user_id := Option.some "u1" })).1
        "s1" (Option.some "u2") = Except.ok Option.none
    ∧ YamlStorage.read Mode.workflow
        (YamlStorage.upsert 5 []
          (SessionUnion.workflow { session_id := "s1", user_id := Option.some "u1" })).1
        "s1" Option.none
      = Except.ok (Option.some (SessionUnion.workflow
          { session_id := "s1", user_id := Option.some "u1",
            updated_at := Option.some 5 }))
    ∧ SqlStorage.read Mode.workflow false
        { tableExists := true,
          rows := [{ session_id := "s1", eid := Option.none,
                     user_id := Option.some "u1", memory := Option.none,
                     edata := Option.none, session_data := Option.none,
                     extra_data := Option.none, created_at := Option.some 1,
                     updated_at := Option.none }] }
        "s1" (Option.some "u2")
      = ({ tableExists := true,
           rows := [{ session_id := "s1", eid := Option.none,
                      user_id := Option.some "u1", memory := Option.none,
                      edata := Option.none, session_data := Option.none,
                      extra_data := Option.none, created_at := Option.some 1,
                      updated_at := Option.none }] }, Option.none) := by
  refine ⟨?_, ?_, ?_⟩
  · exact C7_user_filter_amended.1 Mode.workflow
      (YamlStorage.upsert 5 []
        (SessionUnion.workflow { session_id := "s1", user_id := Option.some "u1" })).1
      "s1" 5
      (SessionUnion.workflow { session_id := "s1", user_id := Option.some "u1" })
      "u2" (lookupFile_writeFile [] "s1" _) (by decide) (by decide)
  · exact C7_user_filter_amended.2.1
      (YamlStorage.upsert 5 []
        (SessionUnion.workflow { session_id := "s1", user_id := Option.some "u1" })).1
      "s1" 5
      (SessionUnion.workflow { session_id := "s1", user_id := Option.some "u1" })
      (lookupFile_writeFile [] "s1" _)
  · exact C7_user_filter_amended.2.2.1 Mode.workflow
      { tableExists := true,
        rows := [{ session_id := "s1", eid := Option.none,
                   user_id := Option.some "u1", memory := Option.none,
                   edata := Option.none, session_data := Option.none,
                   extra_data := Option.none, created_at := Option.some 1,
                   updated_at := Option.none }] }
      "s1" "u1" "u2" rfl
      (by
        intro x hx hxs
        simp only [List.mem_singleton] at hx
        rw [hx])
      (by decide) (by decide)

/-- C8: when the transactional upsert fails because the table is missing, the
backend creates the table and retries exactly once, the retry running with
create_and_retry false (the call with the guard false is upsertOnce, which on
any failure returns None without creating or retrying); and any failure other
than a missing table makes upsert return None for either guard value, with no
retry and no state change. -/
theorem C8_retry_once :
    (∀ (mode : Mode) (now : Int) (fault : Bool) (st : SqlStore) (s : SessionUnion),
      SqlStorage.upsert mode now fault st s false =
        SqlStorage.upsertOnce mode now fault st s)
    ∧ (∀ (mode : Mode) (now : Int) (fault : Bool) (st : SqlStore) (s : SessionUnion),
        st.tableExists = false →
        SqlStorage.upsert mode now fault st s true =
          SqlStorage.upsertOnce mode now fault (SqlStorage.create st) s)
    ∧ (∀ (mode : Mode) (now : Int) (fault : Bool) (st : SqlStore) (s : SessionUnion),
        st.tableExists = false →
        SqlStorage.upsert mode now fault st s false = (st, Option.none))
    ∧ (∀ (mode : Mode) (now : Int) (st : SqlStore) (s : SessionUnion) (car : Bool),
        st.tableExists = true →
        SqlStorage.upsert mode now true st s car = (st, Option.none)) := by
  refine ⟨?_, ?_, ?_, ?_⟩
  · intro mode now fault st s
    exact sql_upsert_false_eq_upsertOnce mode now fault st s
  · intro mode now fault st s htab
    unfold SqlStorage.upsert SqlStorage.upsertAttempt
    rw [htab]
    rfl
  · intro mode now fault st s htab
    unfold SqlStorage.upsert SqlStorage.upsertAttempt
    rw [htab]
    rfl
  · intro mode now st s car htab
    unfold SqlStorage.upsert SqlStorage.upsertAttempt
    rw [htab]
    cases car <;> rfl

/-- C8, witness: the retry discipline evaluated at a concrete missing-table
store (create-and-retry succeeds after creating the table) and at a concrete
transient failure with the table present. -/
theorem C8_retry_once_witness :
    SqlStorage.upsert Mode.workflow 4 false { tableExists := false, rows := [] }
        (SessionUnion.workflow { session_id := "z" }) true =
      SqlStorage.upsertOnce Mode.workflow 4 false
        (SqlStorage.create { tableExists := false, rows := [] })
        (SessionUnion.workflow { session_id := "z" })
    ∧ SqlStorage.upsert Mode.workflow 4 false { tableExists := false, rows := [] }
        (SessionUnion.workflow { session_id := "z" }) false =
      ({ tableExists := false, rows := [] }, Option.none)
    ∧ SqlStorage.upsert Mode.workflow 4 true { tableExists := true, rows := [] }
        (SessionUnion.workflow { session_id := "z" }) true =
      ({ tableExists := true, rows := [] }, Option.none) := by
  refine ⟨?_, ?_, ?_⟩
  · exact C8_retry_once.2.1 Mode.workflow 4 false { tableExists := false, rows := [] }
      (SessionUnion.workflow { session_id := "z" }) rfl
  · exact C8_retry_once.2.2.1 Mode.workflow 4 false { tableExists := false, rows := [] }
      (SessionUnion.workflow { session_id := "z" }) rfl
  · exact C8_retry_once.2.2.2 Mode.workflow 4 { tableExists := true, rows := [] }
      (SessionUnion.workflow { session_id := "z" }) true rfl

/-- C9, counterexample. The claim states that on every backend every upsert,
including the very first persist of a session_id, stamps the stored
updated_at with the time of that persist. On the transactional backend the
very first insert of session "s1" at time 100 leaves the stored updated_at
NULL: neither backend supplies updated_at in the insert values and the
onupdate hook fires only for conflict updates. -/
theorem C9_counterexample :
    ((SqlStorage.upsert Mode.workflow 100 false { tableExists := true, rows := [] }
        (SessionUnion.workflow { session_id := "s1" }) true).1.rows.map
        (fun r => r.updated_at)) = [Option.none]
    ∧ [Option.none] ≠ [Option.some (100 : Int)] := by
  refine ⟨rfl, by decide⟩

/-- C9, amended: the document backend stamps the stored updated_at with the
write time on every persist. The transactional backends stamp it only on the
conflict-update path; the very first insert of a session_id leaves it unset,
with created_at taking the write time. Across two successive upserts of the
same session_id at non-decreasing clock values, the stored updated_at goes
from unset to the second write time, so the values that are set never
decrease. -/
theorem C9_updated_at_amended :
    (∀ (now : Int) (st : FileStore) (s : SessionUnion),
      YamlStorage.storedVal ((YamlStorage.upsert now st s).1) s.session_id
        "updated_at" = Option.some (Val.int now))
    ∧ (∀ (now : Int) (st : SqlStore) (s : SessionUnion),
        st.tableExists = true →
        st.rows.any (fun r => r.session_id == s.session_id) = false →
        (SqlStorage.upsert s.mode now false st s true).1.rows =
          st.rows ++ [SqlStorage.insertedRow now s])
    ∧ (∀ (now : Int) (s : SessionUnion), (SqlStorage.insertedRow now s).updated_at =
        Option.none ∧ (SqlStorage.insertedRow now s).created_at = Option.some now)
    ∧ (∀ (now : Int) (st : SqlStore) (s : SessionUnion) (r : SqlRow),
        st.tableExists = true →
        st.rows.find? (fun x => x.session_id == s.session_id) = Option.some r →
        ((SqlStorage.upsert s.mode now false st s true).1.rows.find?
            (fun x => x.session_id == s.session_id)).map (fun x => x.updated_at) =
          Option.some (Option.some now))
    ∧ (∀ (now1 now2 : Int) (st : SqlStore) (s : SessionUnion),
        st.tableExists = true →
        st.rows.any (fun r => r.session_id == s.session_id) = false →
        now1 ≤ now2 →
        (((SqlStorage.upsert s.mode now2 false
              (SqlStorage.upsert s.mode now1 false st s true).1 s true).1.rows.find?
            (fun x => x.session_id == s.session_id)).map (fun x => x.updated_at)) =
          Option.some (Option.some now2)) := by
  refine ⟨?_, ?_, ?_, ?_, ?_⟩
  · intro now st s
    unfold YamlStorage.storedVal YamlStorage.upsert
    rw [lookupFile_writeFile]
    cases s with
    | agent a => rw [upsertData_agent_eq]; rfl
    | workflow w => rw [upsertData_workflow_eq]; rfl
  · intro now st s htab hfresh
    rw [sql_upsert_fresh now st s htab hfresh]
  · intro now s
    exact ⟨rfl, rfl⟩
  · intro now st s r htab hfind
    rw [sql_upsert_existing now st s r htab hfind]
    rw [find_after_update now st s r hfind]
    rfl
  · intro now1 now2 st s htab hfresh h12
    rw [sql_upsert_fresh now1 st s htab hfresh]
    have hfind2 : (st.rows ++ [SqlStorage.insertedRow now1 s]).find?
        (fun x => x.session_id == s.session_id) =
        Option.some (SqlStorage.insertedRow now1 s) :=
      find_after_insert now1 st s hfresh
    rw [sql_upsert_existing now2 { st with rows := st.rows ++ [SqlStorage.insertedRow now1 s] }
      s (SqlStorage.insertedRow now1 s) htab hfind2]
    rw [find_after_update now2 { st with rows := st.rows ++ [SqlStorage.insertedRow now1 s] }
      s (SqlStorage.insertedRow now1 s) hfind2]
    rfl

/-- C9, witness: the amended timestamp discipline evaluated at a concrete
first insert of session "m" at time 10 followed by a re-upsert at time 12. -/
theorem C9_updated_at_amended_witness :
    YamlStorage.storedVal
        ((YamlStorage.upsert 10 [] (SessionUnion.workflow { session_id := "m" })).1)
        "m" "updated_at" = Option.some (Val.int 10)
    ∧ (((SqlStorage.upsert Mode.workflow 12 false
          (SqlStorage.upsert Mode.workflow 10 false { tableExists := true, rows := [] }
            (SessionUnion.workflow { session_id := "m" }) true).1
          (SessionUnion.workflow { session_id := "m" }) true).1.rows.find?
        (fun x => x.session_id == "m")).map (fun x => x.updated_at)) =
      Option.some (Option.some 12) := by
  constructor
  · exact C9_updated_at_amended.1 10 [] (SessionUnion.workflow { session_id := "m" })
  · exact C9_updated_at_amended.2.2.2.2 10 12 { tableExists := true, rows := [] }
      (SessionUnion.workflow { session_id := "m" }) rfl rfl (by decide)

/-- C10: calling delete_session with session_id None returns without raising
and leaves the backing store untouched, on the document backend and on the
transactional backends alike (which only log a warning). -/
theorem C10_delete_none_noop (st : FileStore) (stq : SqlStore) (fault : Bool) :
    YamlStorage.deleteSession st Option.none = st
    ∧ SqlStorage.deleteSession fault stq Option.none = stq :=
  ⟨rfl, rfl⟩
